import Mathlib

/-!
Shallow embedding of the `io_adapters` package (`src/io_adapters/_registries.py`,
`_adapters.py`, `_clock.py`, `_container.py`) and proofs about it.

Modelling conventions:
* Python strings are lists of Unicode code points (`PyStr := List Nat`);
  `str.strip()` / `str.lower()` are modelled character-wise over the ASCII
  range (letters `A`-`Z` lower to `a`-`z`; everything else is unchanged,
  which matches CPython on the inputs the package manipulates).
* A registry key (Python `Hashable`) is either a text key or some other
  hashable value, modelled as an opaque tag.
* A Python `dict` is an insertion-ordered association list; assignment
  updates in place (keeping the original key object) or appends.
* The registered I/O callables are opaque: a registered user function is a
  tag `Fn.user id`, and its behaviour is supplied by an environment
  (`REnv`/`WEnv`) mapping the tag to a result.  The two bound methods
  `FakeAdapter._read_fn` / `FakeAdapter._write_fn` are the distinguished
  values `Fn.fakeRead` / `Fn.fakeWrite`, interpreted against the adapter's
  `files` map.
* `MappingProxyType` aliasing is modelled with a heap: the `Container`
  owns a heap of dicts, `domain_fns` maps a domain to the two heap
  addresses of its read/write registries, and a `RealAdapter` holds those
  addresses (the proxy is a live read-only view, not a copy).
* Keyword-argument packs (`**kwargs`) are opaque (`Options := Nat`), with
  `0` standing for the empty pack; calling a fake handler (which accepts
  no keyword arguments) with a non-empty pack is a `TypeError`.
-/

namespace IoAdapters

/-- Python strings as lists of Unicode code points. -/
abbrev PyStr := List Nat

/-- Code points of a Lean string literal, for writing concrete examples. -/
def pyStr (s : String) : PyStr := s.toList.map Char.toNat

/-- Python `str.isspace`-style whitespace recognised by `str.strip()`
(ASCII range: space, tab, LF, VT, FF, CR). -/
def pyIsSpace (c : Nat) : Bool :=
  decide (c = 32 ∨ c = 9 ∨ c = 10 ∨ c = 11 ∨ c = 12 ∨ c = 13)

/-- Character-wise `str.lower()` over the ASCII range. -/
def pyLowerChar (c : Nat) : Nat := if 65 ≤ c ∧ c ≤ 90 then c + 32 else c

/-- Python `str.lower()`. -/
def pyLower (s : PyStr) : PyStr := s.map pyLowerChar

/-- Python `str.strip()`: drop whitespace from both ends. -/
def pyStrip (s : PyStr) : PyStr :=
  ((s.dropWhile pyIsSpace).reverse.dropWhile pyIsSpace).reverse

/-- A Python `Hashable` registry key: a text key, or any other hashable
value (enum members and the like), modelled as an opaque tag. -/
inductive Key where
  | text (s : PyStr)
  | other (tag : Nat)
deriving DecidableEq, Repr

/-- `_registries.standardise_key`:
`key.strip().lower() if isinstance(key, str) else key`. -/
def standardise_key : Key → Key
  | .text s => .text (pyLower (pyStrip s))
  | .other t => .other t

/-! Lemmas about the normalizer. -/

theorem pyLowerChar_idem (c : Nat) : pyLowerChar (pyLowerChar c) = pyLowerChar c := by
  unfold pyLowerChar
  by_cases h : 65 ≤ c ∧ c ≤ 90
  · rw [if_pos h, if_neg (by omega)]
  · rw [if_neg h, if_neg h]

theorem pyIsSpace_pyLowerChar (c : Nat) : pyIsSpace (pyLowerChar c) = pyIsSpace c := by
  unfold pyLowerChar
  split
  · next h =>
    simp only [pyIsSpace, decide_eq_decide]
    omega
  · rfl

theorem pyLower_idem (s : PyStr) : pyLower (pyLower s) = pyLower s := by
  unfold pyLower
  rw [List.map_map]
  exact List.map_congr_left fun c _ => pyLowerChar_idem c

theorem dropWhile_idem (p : α → Bool) (l : List α) :
    (l.dropWhile p).dropWhile p = l.dropWhile p := by
  induction l with
  | nil => rfl
  | cons a l ih =>
    by_cases h : p a <;> simp [List.dropWhile_cons, h, ih]

theorem dropWhile_suffix' (p : α → Bool) (l : List α) : l.dropWhile p <:+ l := by
  induction l with
  | nil => exact List.suffix_refl _
  | cons a l ih =>
    by_cases h : p a
    · simpa [List.dropWhile_cons, h] using ih.trans (List.suffix_cons a l)
    · simp [List.dropWhile_cons, h]

theorem length_dropWhile_le' (p : α → Bool) (l : List α) :
    (l.dropWhile p).length ≤ l.length := by
  induction l with
  | nil => exact Nat.le_refl _
  | cons a l ih =>
    by_cases h : p a <;> simp [List.dropWhile_cons, h]
    omega

theorem dropWhile_eq_self_of_initial (p : α → Bool) {x l : List α}
    (hpre : x <+: l) (hfix : l.dropWhile p = l) : x.dropWhile p = x := by
  cases x with
  | nil => rfl
  | cons a x' =>
    obtain ⟨u, hu⟩ := hpre
    subst hu
    by_cases h : p a
    · exfalso
      rw [List.cons_append, List.dropWhile_cons, if_pos h] at hfix
      have hlen := congrArg List.length hfix
      rw [List.length_cons] at hlen
      have hle := length_dropWhile_le' p (x' ++ u)
      omega
    · simp [List.dropWhile_cons, h]

theorem pyStrip_pyLower_comm (s : PyStr) : pyStrip (pyLower s) = pyLower (pyStrip s) := by
  have hcomp : (pyIsSpace ∘ pyLowerChar) = pyIsSpace :=
    funext fun c => pyIsSpace_pyLowerChar c
  unfold pyStrip pyLower
  rw [List.dropWhile_map pyLowerChar pyIsSpace, hcomp, ← List.map_reverse,
    List.dropWhile_map pyLowerChar pyIsSpace, hcomp, ← List.map_reverse]

theorem pyStrip_idem (s : PyStr) : pyStrip (pyStrip s) = pyStrip s := by
  unfold pyStrip
  set t := s.dropWhile pyIsSpace with ht
  have htfix : t.dropWhile pyIsSpace = t := dropWhile_idem pyIsSpace s
  set r := t.reverse.dropWhile pyIsSpace with hr
  have hrsuf : r <:+ t.reverse := dropWhile_suffix' pyIsSpace t.reverse
  have hrpre : r.reverse <+: t := by
    have h2 := List.reverse_prefix.mpr hrsuf
    simpa using h2
  have hfront : r.reverse.dropWhile pyIsSpace = r.reverse :=
    dropWhile_eq_self_of_initial pyIsSpace hrpre htfix
  have hback : r.dropWhile pyIsSpace = r := by
    rw [hr]; exact dropWhile_idem pyIsSpace t.reverse
  rw [hfront, List.reverse_reverse, hback]

theorem standardise_key_strip_lower (s : PyStr) :
    standardise_key (.text (pyLower (pyStrip s))) = standardise_key (.text s) := by
  simp only [standardise_key, Key.text.injEq]
  rw [pyStrip_pyLower_comm, pyLower_idem, pyStrip_idem]

theorem standardise_key_idem (k : Key) :
    standardise_key (standardise_key k) = standardise_key k := by
  cases k with
  | text s => exact standardise_key_strip_lower s
  | other t => rfl

/-! Data model for adapter dispatch (`_adapters.py`). -/

/-- A value read or written through an adapter.  `Data.none` is Python's
`None` (the fake write handler's return value); other values are opaque. -/
inductive Data where
  | none
  | val (n : Nat)
deriving DecidableEq, Repr

/-- A `str | Path` argument.  `PathV.path s` is a `pathlib.Path` whose
string form is `s`; a `Path` and its string are distinct dict keys
(CPython: `Path("p") != "p"`). -/
inductive PathV where
  | str (s : PyStr)
  | path (s : PyStr)
deriving DecidableEq, Repr

/-- Python `str(path)`. -/
def pathStr : PathV → PathV
  | .str s => .str s
  | .path s => .str s

/-- An opaque `**kwargs` pack; `0` is the empty pack. -/
abbrev Options := Nat

/-- A value stored in a function registry: an opaque registered user
function, or one of the two bound fake handlers `FakeAdapter._read_fn` /
`FakeAdapter._write_fn`. -/
inductive Fn where
  | user (id : Nat)
  | fakeRead
  | fakeWrite
deriving DecidableEq, Repr

/-- A Python `dict` keyed by registry keys: an insertion-ordered
association list. -/
abbrev Dict := List (Key × Fn)

/-- Python `d[k]` lookup (first match; assoc lists built by `insertA`
have unique keys). -/
def lookupA {κ α : Type} [DecidableEq κ] : List (κ × α) → κ → Option α
  | [], _ => none
  | (k', v) :: t, k => if k' = k then some v else lookupA t k

/-- Python `d[k] = v`: update in place (keeping the original key object)
if the key is present, else append. -/
def insertA {κ α : Type} [DecidableEq κ] : List (κ × α) → κ → α → List (κ × α)
  | [], k, v => [(k, v)]
  | (k', v') :: t, k, v => if k' = k then (k', v) :: t else (k', v') :: insertA t k v

/-- Exceptions that adapter dispatch can raise. -/
inductive IoErr where
  | notImplementedRead (key : Key)
  | notImplementedWrite (key : Key)
  | fileNotFound (path : PathV) (files : List (PathV × Data))
  | typeError
deriving DecidableEq, Repr

/-- Result of a Python call: a value, or a raised exception. -/
inductive PyResult (ε α : Type) where
  | ok (a : α)
  | error (e : ε)
deriving DecidableEq, Repr

/-- Behaviour of registered user read functions: tag ↦ `(path, **kwargs) -> Data`. -/
abbrev REnv := Nat → PathV → Options → Data

/-- Behaviour of registered user write functions: tag ↦ `(data, path, **kwargs) -> result`. -/
abbrev WEnv := Nat → Data → PathV → Options → Data

/-- The mutable state of an `IoAdapter`: the two function registries and,
for the fake variant, the in-memory file map (unused by real adapters). -/
structure IoAdapter where
  read_fns : Dict
  write_fns : Dict
  files : List (PathV × Data)
deriving DecidableEq, Repr

namespace FakeAdapter

/-- `FakeAdapter._read_fn`: `self.files[path]`, raising
`FileNotFoundError(f"{path = } {self.files = }")` on a missing key. -/
def read_fn_impl (files : List (PathV × Data)) (path : PathV) : PyResult IoErr Data :=
  match lookupA files path with
  | some d => .ok d
  | none => .error (.fileNotFound path files)

/-- `FakeAdapter._write_fn`: `self.files[str(path)] = data`. -/
def write_fn_impl (files : List (PathV × Data)) (data : Data) (path : PathV) :
    List (PathV × Data) :=
  insertA files (pathStr path) data

/-- `FakeAdapter.__attrs_post_init__` registry rebinding:
`dict.fromkeys(self.read_fns.keys(), self._read_fn)` and the write
counterpart, with the seeded `files` map. -/
def postInit (read_fns write_fns : Dict) (files : List (PathV × Data)) : IoAdapter :=
  { read_fns := read_fns.map (fun p => (p.1, Fn.fakeRead)),
    write_fns := write_fns.map (fun p => (p.1, Fn.fakeWrite)),
    files := files }

end FakeAdapter

/-- Call a registry entry as a read function with `(path, **kwargs)`.
The fake handler takes no keyword arguments, so a non-empty pack is a
`TypeError`; calling the write handler with a single argument likewise. -/
def callRead (env : REnv) (st : IoAdapter) (f : Fn) (path : PathV) (opts : Options) :
    PyResult IoErr Data :=
  match f with
  | .user id => .ok (env id path opts)
  | .fakeRead => if opts = 0 then FakeAdapter.read_fn_impl st.files path else .error .typeError
  | .fakeWrite => .error .typeError

/-- Call a registry entry as a write function with `(data, path, **kwargs)`,
returning its result and the adapter state afterwards. -/
def callWrite (wenv : WEnv) (st : IoAdapter) (f : Fn) (data : Data) (path : PathV)
    (opts : Options) : PyResult IoErr (Data × IoAdapter) :=
  match f with
  | .user id => .ok (wenv id data path opts, st)
  | .fakeWrite =>
    if opts = 0 then
      .ok (Data.none, { st with files := FakeAdapter.write_fn_impl st.files data path })
    else .error .typeError
  | .fakeRead => .error .typeError

namespace IoAdapter

/-- `IoAdapter.read`: normalize the format key; raise
`NotImplementedError` naming it if unregistered; otherwise call the
registered function with `(path, **kwargs)` and return its result
unmodified.  The adapter state (never mutated by a read) is returned
alongside. -/
def read (env : REnv) (st : IoAdapter) (path : PathV) (file_type : Key)
    (opts : Options) : PyResult IoErr Data × IoAdapter :=
  let ft := standardise_key file_type
  match lookupA st.read_fns ft with
  | none => (.error (.notImplementedRead ft), st)
  | some f => (callRead env st f path opts, st)

/-- `IoAdapter.write`: normalize the format key; raise
`NotImplementedError` naming it if unregistered; otherwise call the
registered function with `(data, path, **kwargs)` and return its result
unmodified. -/
def write (wenv : WEnv) (st : IoAdapter) (data : Data) (path : PathV)
    (file_type : Key) (opts : Options) : PyResult IoErr (Data × IoAdapter) :=
  let ft := standardise_key file_type
  match lookupA st.write_fns ft with
  | none => .error (.notImplementedWrite ft)
  | some f => callWrite wenv st f data path opts

end IoAdapter

/-! Clock / identifier capabilities (`_clock.py`) and the fake adapter's
capability wiring.  The real defaults (`uuid4`, `datetime.now`) are
nondeterministic external collaborators and are out of scope. -/

/-- A `datetime.datetime` value. -/
structure PyDateTime where
  year : Nat
  month : Nat
  day : Nat
  hour : Nat
  minute : Nat
  second : Nat
  microsecond : Nat
  utc : Bool
deriving DecidableEq, Repr

/-- `_clock.fake_guid`: the fixed string `"abc-123"`. -/
def fake_guid : Unit → PyStr := fun _ => pyStr "abc-123"

/-- `_clock.fake_datetime`: the fixed instant `datetime(2025, 1, 1, 12, tzinfo=UTC)`. -/
def fake_datetime : Unit → PyDateTime := fun _ => ⟨2025, 1, 1, 12, 0, 0, 0, true⟩

/-- A `FakeAdapter`'s resolved capability functions. -/
structure FakeAdapterCaps where
  guid_fn : Unit → PyStr
  datetime_fn : Unit → PyDateTime

/-- `FakeAdapter.__attrs_post_init__` capability resolution:
`self.guid_fn = self.guid_fn or fake_guid` and the datetime counterpart
(`None` falls back to the fixed fake). -/
def FakeAdapterCaps.postInit (guid_fn : Option (Unit → PyStr))
    (datetime_fn : Option (Unit → PyDateTime)) : FakeAdapterCaps :=
  ⟨guid_fn.getD fake_guid, datetime_fn.getD fake_datetime⟩

/-- `FakeAdapter.get_guid`. -/
def FakeAdapterCaps.get_guid (a : FakeAdapterCaps) : PyStr := a.guid_fn ()

/-- `FakeAdapter.get_datetime`. -/
def FakeAdapterCaps.get_datetime (a : FakeAdapterCaps) : PyDateTime := a.datetime_fn ()

/-! Domain container (`_container.py`).  Registry dicts live in a heap so
that the `MappingProxyType` views handed to real adapters share storage
with the container (a proxy is a live read-only view of the same dict). -/

/-- Read the dict at a heap address (addresses held by live objects are
always in range; out-of-range reads return the empty dict). -/
def heapGet : List Dict → Nat → Dict
  | [], _ => []
  | d :: _, 0 => d
  | _ :: t, n + 1 => heapGet t n

/-- Overwrite the dict at a heap address. -/
def heapSet : List Dict → Nat → Dict → List Dict
  | [], _, _ => []
  | _ :: t, 0, d => d :: t
  | x :: t, n + 1, d => x :: heapSet t n d

/-- `KeyError` raised by a failed `dict` lookup (the UndeclaredDomain
error of the spec). -/
inductive CError where
  | keyError (k : Key)
deriving DecidableEq, Repr

/-- `Container` state: the heap of registry dicts and
`domain_fns : domain ↦ (read-registry address, write-registry address)`. -/
structure Container where
  heap : List Dict
  domain_fns : List (Key × Nat × Nat)
deriving DecidableEq, Repr

namespace Container

/-- `Container.add_domain`:
`self.domain_fns[domain] = {READ: {}, WRITE: {}}` — the domain key is
stored exactly as given and two fresh empty registries are allocated. -/
def add_domain (c : Container) (domain : Key) : Container :=
  { heap := c.heap ++ [[], []],
    domain_fns := insertA c.domain_fns domain (c.heap.length, c.heap.length + 1) }

/-- `Container.__attrs_post_init__` on `Container(domains=...)`: an empty
pair of fresh registries per listed domain. -/
def ofDomains (domains : List Key) : Container :=
  domains.foldl (fun c d => c.add_domain d) { heap := [], domain_fns := [] }

/-- `Container.register_domain_read_fn(domain, key)` followed by applying
the returned decorator to the function `f`: both `domain` and `key` are
normalized, and `self.domain_fns[domain]` raises `KeyError` if the
normalized domain was never added. -/
def register_domain_read_fn (c : Container) (domain key : Key) (f : Nat) :
    PyResult CError Container :=
  let domain := standardise_key domain
  let key := standardise_key key
  match lookupA c.domain_fns domain with
  | none => .error (.keyError domain)
  | some (ra, _) =>
    .ok { c with heap := heapSet c.heap ra (insertA (heapGet c.heap ra) key (.user f)) }

/-- `Container.register_domain_write_fn(domain, key)` followed by applying
the returned decorator to the function `f`. -/
def register_domain_write_fn (c : Container) (domain key : Key) (f : Nat) :
    PyResult CError Container :=
  let domain := standardise_key domain
  let key := standardise_key key
  match lookupA c.domain_fns domain with
  | none => .error (.keyError domain)
  | some (_, wa) =>
    .ok { c with heap := heapSet c.heap wa (insertA (heapGet c.heap wa) key (.user f)) }

end Container

/-- A `RealAdapter` issued by the container: its `read_fns`/`write_fns`
attributes are `MappingProxyType` views of the two domain registries,
modelled by their heap addresses.  The real clock/identifier defaults
(`uuid4`, `datetime.now`) are nondeterministic external collaborators and
are not modelled. -/
structure RealAdapter where
  read_addr : Nat
  write_addr : Nat
deriving DecidableEq, Repr

/-- The contents of `adapter.read_fns` as observed while the container is
in state `c` (a live view, so it depends on the current heap). -/
def RealAdapter.read_fns (a : RealAdapter) (c : Container) : Dict :=
  heapGet c.heap a.read_addr

/-- The contents of `adapter.write_fns` as observed in container state `c`. -/
def RealAdapter.write_fns (a : RealAdapter) (c : Container) : Dict :=
  heapGet c.heap a.write_addr

namespace Container

/-- `Container.get_real_adapter(domain)`: look the domain up exactly as
given (`KeyError` if absent) and hand the adapter proxies of the two
registries. -/
def get_real_adapter (c : Container) (domain : Key) : PyResult CError RealAdapter :=
  match lookupA c.domain_fns domain with
  | none => .error (.keyError domain)
  | some (ra, wa) => .ok ⟨ra, wa⟩

/-- `Container.get_fake_adapter(domain, files)`: look the domain up
exactly as given and build a `FakeAdapter` from the current registry
contents (`__attrs_post_init__` copies the key sets into fresh dicts). -/
def get_fake_adapter (c : Container) (domain : Key) (files : List (PathV × Data)) :
    PyResult CError IoAdapter :=
  match lookupA c.domain_fns domain with
  | none => .error (.keyError domain)
  | some (ra, wa) =>
    .ok (FakeAdapter.postInit (heapGet c.heap ra) (heapGet c.heap wa) files)

/-- Well-formedness of a container state: every registry address held in
`domain_fns` is a distinct allocated heap cell.  Every container built
with `ofDomains` / `add_domain` satisfies this. -/
def wfB (c : Container) : Bool :=
  c.domain_fns.all (fun p => decide (p.2.1 < c.heap.length) && decide (p.2.2 < c.heap.length))
    && decide (c.domain_fns.map (fun p => p.2.1) ++ c.domain_fns.map (fun p => p.2.2)).Nodup

end Container

/-! Helper lemmas about the dict, heap and container operations. -/

theorem lookupA_insertA_self {κ α : Type} [DecidableEq κ] (m : List (κ × α)) (k : κ) (v : α) :
    lookupA (insertA m k v) k = some v := by
  induction m with
  | nil => simp [insertA, lookupA]
  | cons p t ih =>
    obtain ⟨k', v'⟩ := p
    by_cases h : k' = k <;> simp [insertA, lookupA, h, ih]

theorem lookupA_insertA_ne {κ α : Type} [DecidableEq κ] (m : List (κ × α)) {k k' : κ}
    (h : k' ≠ k) (v : α) : lookupA (insertA m k v) k' = lookupA m k' := by
  induction m with
  | nil => simp only [insertA, lookupA, if_neg (Ne.symm h)]
  | cons p t ih =>
    obtain ⟨k0, v0⟩ := p
    by_cases h0 : k0 = k
    · subst h0
      simp only [insertA, if_pos rfl, lookupA, if_neg (Ne.symm h)]
    · by_cases h1 : k0 = k'
      · subst h1
        simp only [insertA, if_neg h0, lookupA, if_pos rfl]
        simp
      · simp [insertA, lookupA, h0, h1, ih]

theorem lookupA_mem {κ α : Type} [DecidableEq κ] {m : List (κ × α)} {k : κ} {v : α}
    (h : lookupA m k = some v) : (k, v) ∈ m := by
  induction m with
  | nil => simp [lookupA] at h
  | cons p t ih =>
    obtain ⟨k', v'⟩ := p
    by_cases hk : k' = k
    · subst hk
      rw [lookupA, if_pos rfl] at h
      injection h with h
      subst h
      exact List.mem_cons_self _ _
    · rw [lookupA, if_neg hk] at h
      exact List.mem_cons_of_mem _ (ih h)

theorem lookupA_map_const {κ α β : Type} [DecidableEq κ] (m : List (κ × α)) (k : κ) (c : β) :
    lookupA (m.map (fun p => (p.1, c))) k = (lookupA m k).map (fun _ => c) := by
  induction m with
  | nil => rfl
  | cons p t ih =>
    obtain ⟨k', v'⟩ := p
    by_cases h : k' = k <;> simp [lookupA, h, ih]

theorem heapGet_heapSet_self {l : List Dict} {a : Nat} (h : a < l.length) (d : Dict) :
    heapGet (heapSet l a d) a = d := by
  induction l generalizing a with
  | nil => simp at h
  | cons x t ih =>
    cases a with
    | zero => rfl
    | succ n => exact ih (Nat.lt_of_succ_lt_succ (by simpa using h))

theorem heapGet_heapSet_ne (l : List Dict) {a b : Nat} (h : a ≠ b) (d : Dict) :
    heapGet (heapSet l a d) b = heapGet l b := by
  induction l generalizing a b with
  | nil => rfl
  | cons x t ih =>
    cases a with
    | zero =>
      cases b with
      | zero => exact absurd rfl h
      | succ m => rfl
    | succ n =>
      cases b with
      | zero => rfl
      | succ m => exact ih (fun hh => h (by rw [hh]))

namespace Container

theorem wf_addr_lt {c : Container} {d : Key} {ra wa : Nat}
    (hwf : c.wfB = true) (h : lookupA c.domain_fns d = some (ra, wa)) :
    ra < c.heap.length ∧ wa < c.heap.length := by
  have hmem := lookupA_mem h
  rw [wfB, Bool.and_eq_true] at hwf
  have hall := hwf.1
  rw [List.all_eq_true] at hall
  have := hall _ hmem
  simpa using this

theorem wf_read_addr_ne {c : Container} {dA dB : Key} {ra wa rb wb : Nat}
    (hwf : c.wfB = true) (hne : dA ≠ dB)
    (hA : lookupA c.domain_fns dA = some (ra, wa))
    (hB : lookupA c.domain_fns dB = some (rb, wb)) : ra ≠ rb := by
  intro hr
  subst hr
  have hmemA := lookupA_mem hA
  have hmemB := lookupA_mem hB
  rw [wfB, Bool.and_eq_true] at hwf
  have hnd := of_decide_eq_true hwf.2
  have hndl := hnd.of_append_left
  have heq := List.inj_on_of_nodup_map hndl hmemA hmemB rfl
  exact hne (congrArg Prod.fst heq)

theorem wf_write_addr_ne {c : Container} {dA dB : Key} {ra wa rb wb : Nat}
    (hwf : c.wfB = true) (hne : dA ≠ dB)
    (hA : lookupA c.domain_fns dA = some (ra, wa))
    (hB : lookupA c.domain_fns dB = some (rb, wb)) : wa ≠ wb := by
  intro hw
  subst hw
  have hmemA := lookupA_mem hA
  have hmemB := lookupA_mem hB
  rw [wfB, Bool.and_eq_true] at hwf
  have hnd := of_decide_eq_true hwf.2
  have hndr := hnd.of_append_right
  have heq := List.inj_on_of_nodup_map hndr hmemA hmemB rfl
  exact hne (congrArg Prod.fst heq)

theorem wf_rw_addr_ne {c : Container} {dA dB : Key} {ra wa rb wb : Nat}
    (hwf : c.wfB = true)
    (hA : lookupA c.domain_fns dA = some (ra, wa))
    (hB : lookupA c.domain_fns dB = some (rb, wb)) : ra ≠ wb := by
  have hmemA := lookupA_mem hA
  have hmemB := lookupA_mem hB
  rw [wfB, Bool.and_eq_true] at hwf
  have hnd := of_decide_eq_true hwf.2
  have hdisj := List.disjoint_of_nodup_append hnd
  intro h
  exact hdisj (List.mem_map_of_mem _ hmemA) (h ▸ List.mem_map_of_mem _ hmemB)

theorem get_real_adapter_ok {c : Container} {d : Key} {a : RealAdapter}
    (h : c.get_real_adapter d = .ok a) :
    lookupA c.domain_fns d = some (a.read_addr, a.write_addr) := by
  cases hm : lookupA c.domain_fns d with
  | none => simp [get_real_adapter, hm] at h
  | some p =>
    obtain ⟨ra, wa⟩ := p
    simp only [get_real_adapter, hm] at h
    injection h with h
    rw [← h]

theorem register_read_ok {c c' : Container} {dn k : Key} {f ra wa : Nat}
    (hm : lookupA c.domain_fns (standardise_key dn) = some (ra, wa))
    (hreg : c.register_domain_read_fn dn k f = .ok c') :
    c' = { c with heap := heapSet c.heap ra (insertA (heapGet c.heap ra) (standardise_key k) (Fn.user f)) } := by
  simp only [register_domain_read_fn, hm] at hreg
  injection hreg with h
  exact h.symm

theorem register_write_ok {c c' : Container} {dn k : Key} {f ra wa : Nat}
    (hm : lookupA c.domain_fns (standardise_key dn) = some (ra, wa))
    (hreg : c.register_domain_write_fn dn k f = .ok c') :
    c' = { c with heap := heapSet c.heap wa (insertA (heapGet c.heap wa) (standardise_key k) (Fn.user f)) } := by
  simp only [register_domain_write_fn, hm] at hreg
  injection hreg with h
  exact h.symm

end Container

/-- Python truthiness of a call result. -/
def PyResult.isOk {ε α : Type} : PyResult ε α → Bool
  | .ok _ => true
  | .error _ => false

/-! Concrete inputs for witnesses and counterexamples. -/

/-- The text key `"orders"`. -/
def korders : Key := .text (pyStr "orders")

/-- The text key `"payment"`. -/
def kpayment : Key := .text (pyStr "payment")

/-- The text key `"Orders"` (distinct from `"orders"`, normalizes to it). -/
def kOrders : Key := .text (pyStr "Orders")

/-- The text key `"ORDERS"` (distinct from `"orders"`, normalizes to it). -/
def kORDERS : Key := .text (pyStr "ORDERS")

/-- The text key `"json"` (already normalized). -/
def kjson : Key := .text (pyStr "json")

/-- A concrete read-function environment for examples. -/
def renv0 : REnv := fun fid _ o => Data.val (fid + o)

/-- A concrete write-function environment for examples. -/
def wenv0 : WEnv := fun _ d _ _ => d

/-! ## C5 — key normalization -/

/-- C5: `standardise_key` is pure and total by construction; on text keys
it strips then lower-cases, other keys pass through unchanged; for every
text key `k`, `normalize(k) = normalize(k.strip().lower())`; and
`standardise_key` is idempotent on every key. -/
theorem c5_standardise_key_spec :
    (∀ s : PyStr, standardise_key (.text s) = .text (pyLower (pyStrip s)))
    ∧ (∀ t : Nat, standardise_key (.other t) = .other t)
    ∧ (∀ s : PyStr, standardise_key (.text s) = standardise_key (.text (pyLower (pyStrip s))))
    ∧ (∀ k : Key, standardise_key (standardise_key k) = standardise_key k) :=
  ⟨fun _ => rfl, fun _ => rfl, fun s => (standardise_key_strip_lower s).symm,
    standardise_key_idem⟩

/-! ## C9 — fake adapter determinism -/

/-- C9: two Fake Adapters constructed without overriding the capability
functions return the same fixed constant identifier `"abc-123"` and the
same fixed constant instant `2025-01-01 12:00 UTC` on every call (the
model is pure, so all calls on all such instances agree), and both
defaults can be overridden per-instance. -/
theorem c9_fake_determinism :
    ((FakeAdapterCaps.postInit none none).get_guid
        = (FakeAdapterCaps.postInit none none).get_guid)
    ∧ ((FakeAdapterCaps.postInit none none).get_guid = pyStr "abc-123")
    ∧ ((FakeAdapterCaps.postInit none none).get_datetime = ⟨2025, 1, 1, 12, 0, 0, 0, true⟩)
    ∧ (∀ g : Unit → PyStr, (FakeAdapterCaps.postInit (some g) none).get_guid = g ())
    ∧ (∀ t : Unit → PyDateTime, (FakeAdapterCaps.postInit none (some t)).get_datetime = t ()) :=
  ⟨rfl, rfl, rfl, fun _ => rfl, fun _ => rfl⟩

/-! ## C8 — fake adapter registry rebinding -/

/-- C8: a Fake Adapter built from inherited function maps has exactly the
inherited key sets, every read key bound to the one shared fake read
handler and every write key bound to the one shared fake write handler;
empty maps are legal and yield an adapter supporting no formats (every
read and write fails with the NotImplemented-style error). -/
theorem c8_fake_rebind (R W : Dict) (files : List (PathV × Data)) :
    ((FakeAdapter.postInit R W files).read_fns.map Prod.fst = R.map Prod.fst)
    ∧ ((FakeAdapter.postInit R W files).write_fns.map Prod.fst = W.map Prod.fst)
    ∧ (∀ k, lookupA (FakeAdapter.postInit R W files).read_fns k
        = (lookupA R k).map (fun _ => Fn.fakeRead))
    ∧ (∀ k, lookupA (FakeAdapter.postInit R W files).write_fns k
        = (lookupA W k).map (fun _ => Fn.fakeWrite))
    ∧ ((FakeAdapter.postInit R W files).files = files)
    ∧ (∀ (env : REnv) (path : PathV) (ft : Key) (opts : Options),
        (IoAdapter.read env (FakeAdapter.postInit [] [] files) path ft opts).1
          = .error (.notImplementedRead (standardise_key ft)))
    ∧ (∀ (wenv : WEnv) (data : Data) (path : PathV) (ft : Key) (opts : Options),
        IoAdapter.write wenv (FakeAdapter.postInit [] [] files) data path ft opts
          = .error (.notImplementedWrite (standardise_key ft))) := by
  refine ⟨?_, ?_, ?_, ?_, rfl, ?_, ?_⟩
  · simp [FakeAdapter.postInit, List.map_map, Function.comp]
  · simp [FakeAdapter.postInit, List.map_map, Function.comp]
  · intro k
    exact lookupA_map_const R k Fn.fakeRead
  · intro k
    exact lookupA_map_const W k Fn.fakeWrite
  · intro env path ft opts
    simp [IoAdapter.read, FakeAdapter.postInit, lookupA]
  · intro wenv data path ft opts
    simp [IoAdapter.write, FakeAdapter.postInit, lookupA]

/-! ## C3 — dispatch and the UnsupportedFormat error -/

/-- C3: `read` (resp. `write`) raises the NotImplemented-style error
naming the normalized format key exactly when that key is absent from
`read_fns` (resp. `write_fns`); when the key is bound to a registered
function, the function is invoked with `(path, **options)` (resp.
`(data, path, **options)`) and its result is returned unmodified. -/
theorem c3_dispatch (st : IoAdapter) (env : REnv) (wenv : WEnv) (path : PathV)
    (ft : Key) (opts : Options) (data : Data) :
    (((IoAdapter.read env st path ft opts).1
        = .error (.notImplementedRead (standardise_key ft)))
      ↔ lookupA st.read_fns (standardise_key ft) = none)
    ∧ (∀ fid, lookupA st.read_fns (standardise_key ft) = some (.user fid) →
        (IoAdapter.read env st path ft opts).1 = .ok (env fid path opts))
    ∧ ((IoAdapter.write wenv st data path ft opts
        = .error (.notImplementedWrite (standardise_key ft)))
      ↔ lookupA st.write_fns (standardise_key ft) = none)
    ∧ (∀ fid, lookupA st.write_fns (standardise_key ft) = some (.user fid) →
        IoAdapter.write wenv st data path ft opts
          = .ok (wenv fid data path opts, st)) := by
  refine ⟨?_, ?_, ?_, ?_⟩
  · cases hm : lookupA st.read_fns (standardise_key ft) with
    | none => simp [IoAdapter.read, hm]
    | some f =>
      simp only [IoAdapter.read, hm]
      constructor
      · intro h
        exfalso
        cases f with
        | user fid => simp [callRead] at h
        | fakeRead =>
          by_cases ho : opts = 0
          · rw [callRead, if_pos ho] at h
            rw [FakeAdapter.read_fn_impl] at h
            cases hp : lookupA st.files path <;> simp [hp] at h
          · rw [callRead, if_neg ho] at h
            simp at h
        | fakeWrite => simp [callRead] at h
      · intro h
        cases h
  · intro fid h
    simp [IoAdapter.read, h, callRead]
  · cases hm : lookupA st.write_fns (standardise_key ft) with
    | none => simp [IoAdapter.write, hm]
    | some f =>
      simp only [IoAdapter.write, hm]
      constructor
      · intro h
        exfalso
        cases f with
        | user fid => simp [callWrite] at h
        | fakeRead => simp [callWrite] at h
        | fakeWrite =>
          by_cases ho : opts = 0
          · rw [callWrite, if_pos ho] at h
            simp at h
          · rw [callWrite, if_neg ho] at h
            simp at h
      · intro h
        cases h
  · intro fid h
    simp [IoAdapter.write, h, callWrite]

/-- An adapter with `"json"` bound to registered user function 3 on both
sides, for the C3 witness. -/
def c3_st : IoAdapter :=
  { read_fns := [(kjson, .user 3)], write_fns := [(kjson, .user 3)], files := [] }

/-- Witness for C3: on a concrete adapter with `"json"` registered,
`read` and `write` return the registered functions' results unmodified. -/
theorem c3_dispatch_witness :
    (IoAdapter.read renv0 c3_st (PathV.str (pyStr "p")) kjson 0).1
      = .ok (renv0 3 (PathV.str (pyStr "p")) 0)
    ∧ IoAdapter.write wenv0 c3_st (Data.val 5) (PathV.str (pyStr "p")) kjson 0
      = .ok (wenv0 3 (Data.val 5) (PathV.str (pyStr "p")) 0, c3_st) :=
  ⟨(c3_dispatch c3_st renv0 wenv0 (PathV.str (pyStr "p")) kjson 0 (Data.val 5)).2.1
      3 (by decide),
   (c3_dispatch c3_st renv0 wenv0 (PathV.str (pyStr "p")) kjson 0 (Data.val 5)).2.2.2
      3 (by decide)⟩

/-! ## C7 — fake read of a missing path -/

/-- C7: a Fake Adapter read of a path absent from the in-memory file map
(under a supported format) fails with the not-found error carrying both
the attempted path and the full current file map, and leaves the adapter
state (in particular the file map) unchanged. -/
theorem c7_fake_read_missing_path (st : IoAdapter) (env : REnv) (path : PathV) (ft : Key)
    (hfmt : lookupA st.read_fns (standardise_key ft) = some Fn.fakeRead)
    (hpath : lookupA st.files path = none) :
    IoAdapter.read env st path ft 0 = (.error (.fileNotFound path st.files), st) := by
  simp [IoAdapter.read, hfmt, callRead, FakeAdapter.read_fn_impl, hpath]

/-- A Fake Adapter constructed with `files={}` and `"json"` supported,
for the C7 witness. -/
def c7_st : IoAdapter := FakeAdapter.postInit [(kjson, .user 0)] [(kjson, .user 0)] []

/-- Witness for C7: the empty-files fake raises the not-found error,
reporting the path and the (empty) file map, with the state unchanged. -/
theorem c7_fake_read_missing_path_witness :
    lookupA c7_st.read_fns (standardise_key kjson) = some Fn.fakeRead
    ∧ lookupA c7_st.files (PathV.str (pyStr "missing")) = none
    ∧ IoAdapter.read renv0 c7_st (PathV.str (pyStr "missing")) kjson 0
      = (.error (.fileNotFound (PathV.str (pyStr "missing")) []), c7_st) :=
  ⟨by decide, by decide,
   c7_fake_read_missing_path c7_st renv0 (PathV.str (pyStr "missing")) kjson
     (by decide) (by decide)⟩

/-! ## C4 — fake write/read round trip -/

/-- A Fake Adapter supporting `"json"`, with no files, for the C4
counterexample. -/
def c4_st : IoAdapter := FakeAdapter.postInit [(kjson, .user 0)] [(kjson, .user 0)] []

/-- The adapter state after writing `1` to the `pathlib.Path` `"p"`. -/
def c4_after : IoAdapter :=
  match IoAdapter.write wenv0 c4_st (Data.val 1) (PathV.path (pyStr "p")) kjson 0 with
  | .ok (_, s) => s
  | .error _ => c4_st

/-- Counterexample to C4 as stated: with a `pathlib.Path` argument, the
write succeeds and stores the data under `str(path)`, but the subsequent
read of the same path looks it up as given, misses, and raises the
not-found error instead of returning the data. -/
theorem c4_counterexample :
    IoAdapter.write wenv0 c4_st (Data.val 1) (PathV.path (pyStr "p")) kjson 0
      = .ok (Data.none, c4_after)
    ∧ c4_after.files = [(PathV.str (pyStr "p"), Data.val 1)]
    ∧ (IoAdapter.read renv0 c4_after (PathV.path (pyStr "p")) kjson 0).1
      = .error (.fileNotFound (PathV.path (pyStr "p"))
          [(PathV.str (pyStr "p"), Data.val 1)]) := by
  decide

/-- C4 amended: for every Fake Adapter whose inherited maps contain the
format, every data value, and every string path, `write(data, path, fmt)`
stores `data` under the path (overwriting any prior value) and a
subsequent `read(path, fmt)` returns `data`. -/
theorem c4_roundtrip_string_path (R W : Dict) (files : List (PathV × Data)) (fmt : Key)
    (s : PyStr) (data : Data) (env : REnv) (wenv : WEnv)
    (hr : (lookupA R (standardise_key fmt)).isSome = true)
    (hw : (lookupA W (standardise_key fmt)).isSome = true) :
    IoAdapter.write wenv (FakeAdapter.postInit R W files) data (PathV.str s) fmt 0
      = .ok (Data.none, { FakeAdapter.postInit R W files with
          files := insertA files (PathV.str s) data })
    ∧ (IoAdapter.read env { FakeAdapter.postInit R W files with
          files := insertA files (PathV.str s) data } (PathV.str s) fmt 0).1
      = .ok data := by
  obtain ⟨fr, hfr⟩ := Option.isSome_iff_exists.mp hr
  obtain ⟨fw, hfw⟩ := Option.isSome_iff_exists.mp hw
  have hwl : lookupA (W.map (fun p => (p.1, Fn.fakeWrite))) (standardise_key fmt)
      = some Fn.fakeWrite := by
    rw [lookupA_map_const W (standardise_key fmt) Fn.fakeWrite, hfw]
    rfl
  have hrl : lookupA (R.map (fun p => (p.1, Fn.fakeRead))) (standardise_key fmt)
      = some Fn.fakeRead := by
    rw [lookupA_map_const R (standardise_key fmt) Fn.fakeRead, hfr]
    rfl
  constructor
  · simp [IoAdapter.write, FakeAdapter.postInit, hwl, callWrite,
      FakeAdapter.write_fn_impl, pathStr]
  · simp [IoAdapter.read, FakeAdapter.postInit, hrl, callRead,
      FakeAdapter.read_fn_impl, lookupA_insertA_self]

/-- Witness for C4 amended: writing `7` to the string path `"p"` on a
fresh fake and reading it back returns `7`. -/
theorem c4_roundtrip_string_path_witness :
    (lookupA [(kjson, Fn.user 0)] (standardise_key kjson)).isSome = true
    ∧ (IoAdapter.read renv0 { FakeAdapter.postInit [(kjson, .user 0)] [(kjson, .user 0)] []
        with files := insertA [] (PathV.str (pyStr "p")) (Data.val 7) }
        (PathV.str (pyStr "p")) kjson 0).1 = .ok (Data.val 7) :=
  ⟨by decide,
   (c4_roundtrip_string_path [(kjson, .user 0)] [(kjson, .user 0)] [] kjson
      (pyStr "p") (Data.val 7) renv0 wenv0 (by decide) (by decide)).2⟩

/-! ## C1 — adapter function maps are live views, not snapshots -/

/-- The container with the single domain `"orders"`. -/
def c1_c0 : Container := Container.ofDomains [korders]

/-- `c1_c0` after registering read function 7 under `("orders", "json")`. -/
def c1_c1 : Container :=
  match c1_c0.register_domain_read_fn korders kjson 7 with
  | .ok c => c
  | .error _ => c1_c0

/-- Counterexample to C1 as stated: the adapter issued before the
registration did not contain `"json"`, yet after the later registration
the very same adapter's `read_fns` contains the new function — the maps
are live `MappingProxyType` views of the domain registries, not a
snapshot taken at `get_real_adapter` time. -/
theorem c1_counterexample :
    c1_c0.get_real_adapter korders = .ok ⟨0, 1⟩
    ∧ lookupA (RealAdapter.read_fns ⟨0, 1⟩ c1_c0) kjson = none
    ∧ c1_c0.register_domain_read_fn korders kjson 7 = .ok c1_c1
    ∧ lookupA (RealAdapter.read_fns ⟨0, 1⟩ c1_c1) kjson = some (.user 7) := by
  decide

/-- C1 amended: the `read_fns`/`write_fns` of an issued Real Adapter are
read-only live views of the domain's registries: a later registration of
a read function to the same domain makes the adapter's `read_fns` show
exactly the registry with the new binding inserted (so later
registrations are visible on already-issued adapters), while its
`write_fns` view is unchanged; the views being read-only, adapters offer
no operation that could mutate the container or other adapters. -/
theorem c1_adapter_view_is_live (c c' : Container) (d k : Key) (f : Nat) (a : RealAdapter)
    (hwf : c.wfB = true)
    (hd : standardise_key d = d)
    (ha : c.get_real_adapter d = .ok a)
    (hreg : c.register_domain_read_fn d k f = .ok c') :
    RealAdapter.read_fns a c'
      = insertA (RealAdapter.read_fns a c) (standardise_key k) (Fn.user f)
    ∧ RealAdapter.write_fns a c' = RealAdapter.write_fns a c := by
  have hm := Container.get_real_adapter_ok ha
  have hm' : lookupA c.domain_fns (standardise_key d)
      = some (a.read_addr, a.write_addr) := by rw [hd]; exact hm
  have hc' := Container.register_read_ok hm' hreg
  subst hc'
  have hlt := Container.wf_addr_lt hwf hm
  have hrw := Container.wf_rw_addr_ne hwf hm hm
  constructor
  · show heapGet (heapSet c.heap a.read_addr _) a.read_addr = _
    rw [heapGet_heapSet_self hlt.1]
    rfl
  · show heapGet (heapSet c.heap a.read_addr _) a.write_addr = heapGet c.heap a.write_addr
    exact heapGet_heapSet_ne c.heap hrw _

/-- Witness for C1 amended, on the concrete `"orders"` container. -/
theorem c1_adapter_view_is_live_witness :
    c1_c0.wfB = true
    ∧ standardise_key korders = korders
    ∧ c1_c0.get_real_adapter korders = .ok ⟨0, 1⟩
    ∧ c1_c0.register_domain_read_fn korders kjson 7 = .ok c1_c1
    ∧ RealAdapter.read_fns ⟨0, 1⟩ c1_c1
      = insertA (RealAdapter.read_fns ⟨0, 1⟩ c1_c0) (standardise_key kjson) (Fn.user 7)
    ∧ RealAdapter.write_fns ⟨0, 1⟩ c1_c1 = RealAdapter.write_fns ⟨0, 1⟩ c1_c0 :=
  ⟨by decide, by decide, by decide, by decide,
   (c1_adapter_view_is_live c1_c0 c1_c1 korders kjson 7 ⟨0, 1⟩
      (by decide) (by decide) (by decide) (by decide)).1,
   (c1_adapter_view_is_live c1_c0 c1_c1 korders kjson 7 ⟨0, 1⟩
      (by decide) (by decide) (by decide) (by decide)).2⟩

/-! ## C2 — domain isolation -/

/-- The container with the two distinct domains `"Orders"` and `"orders"`. -/
def c2_c0 : Container := Container.ofDomains [kOrders, korders]

/-- `c2_c0` after registering read function 5 under `("Orders", "json")`. -/
def c2_c1 : Container :=
  match c2_c0.register_domain_read_fn kOrders kjson 5 with
  | .ok c => c
  | .error _ => c2_c0

/-- Counterexample to C2 as stated: with the two distinct added domains
`A = "Orders"` and `B = "orders"`, registering a read function only under
`A` lands (via domain-key normalization) in `B`'s registry, so the
adapter requested for `B` sees the key while the adapter requested for
`A` does not — the opposite of the claim on both conjuncts. -/
theorem c2_counterexample :
    c2_c0.register_domain_read_fn kOrders kjson 5 = .ok c2_c1
    ∧ c2_c1.get_real_adapter kOrders = .ok ⟨0, 1⟩
    ∧ c2_c1.get_real_adapter korders = .ok ⟨2, 3⟩
    ∧ lookupA (RealAdapter.read_fns ⟨0, 1⟩ c2_c1) kjson = none
    ∧ lookupA (RealAdapter.read_fns ⟨2, 3⟩ c2_c1) kjson = some (.user 5) := by
  decide

/-- C2 amended: for two distinct added domains that are fixed points of
key normalization, a read (resp. write) function registered only under
domain `A` appears in the `read_fns` (resp. `write_fns`) of the adapter
requested for `A` and never appears in the corresponding map of the
adapter requested for `B` (provided the function was not already in `B`'s
registry). -/
theorem c2_domain_isolation_normalized (c cr cw : Container) (A B k kw : Key)
    (f g ra wa rb wb : Nat)
    (hwf : c.wfB = true)
    (hAB : A ≠ B)
    (hA : standardise_key A = A)
    (hAm : lookupA c.domain_fns A = some (ra, wa))
    (hBm : lookupA c.domain_fns B = some (rb, wb))
    (hregr : c.register_domain_read_fn A k f = .ok cr)
    (hregw : c.register_domain_write_fn A kw g = .ok cw)
    (hfreshr : (heapGet c.heap rb).all (fun p => decide (p.2 ≠ Fn.user f)) = true)
    (hfreshw : (heapGet c.heap wb).all (fun p => decide (p.2 ≠ Fn.user g)) = true) :
    cr.get_real_adapter A = .ok ⟨ra, wa⟩
    ∧ cr.get_real_adapter B = .ok ⟨rb, wb⟩
    ∧ lookupA (RealAdapter.read_fns ⟨ra, wa⟩ cr) (standardise_key k) = some (Fn.user f)
    ∧ (RealAdapter.read_fns ⟨rb, wb⟩ cr).all (fun p => decide (p.2 ≠ Fn.user f)) = true
    ∧ lookupA (RealAdapter.write_fns ⟨ra, wa⟩ cw) (standardise_key kw) = some (Fn.user g)
    ∧ (RealAdapter.write_fns ⟨rb, wb⟩ cw).all (fun p => decide (p.2 ≠ Fn.user g)) = true := by
  have hAm' : lookupA c.domain_fns (standardise_key A) = some (ra, wa) := by
    rw [hA]; exact hAm
  have hcr := Container.register_read_ok hAm' hregr
  have hcw := Container.register_write_ok hAm' hregw
  subst hcr
  subst hcw
  have hlt := Container.wf_addr_lt hwf hAm
  have hrne := Container.wf_read_addr_ne hwf hAB hAm hBm
  have hwne := Container.wf_write_addr_ne hwf hAB hAm hBm
  refine ⟨?_, ?_, ?_, ?_, ?_, ?_⟩
  · show Container.get_real_adapter _ A = _
    simp [Container.get_real_adapter, hAm]
  · show Container.get_real_adapter _ B = _
    simp [Container.get_real_adapter, hBm]
  · show lookupA (heapGet (heapSet c.heap ra _) ra) _ = _
    rw [heapGet_heapSet_self hlt.1, lookupA_insertA_self]
  · show (heapGet (heapSet c.heap ra _) rb).all _ = true
    rw [heapGet_heapSet_ne c.heap hrne]
    exact hfreshr
  · show lookupA (heapGet (heapSet c.heap wa _) wa) _ = _
    rw [heapGet_heapSet_self hlt.2, lookupA_insertA_self]
  · show (heapGet (heapSet c.heap wa _) wb).all _ = true
    rw [heapGet_heapSet_ne c.heap hwne]
    exact hfreshw

/-- The container with the two domains `"orders"` and `"payment"`. -/
def c2w_c0 : Container := Container.ofDomains [korders, kpayment]

/-- `c2w_c0` after registering read function 5 under `("orders", "json")`. -/
def c2w_cr : Container :=
  match c2w_c0.register_domain_read_fn korders kjson 5 with
  | .ok c => c
  | .error _ => c2w_c0

/-- `c2w_c0` after registering write function 6 under `("orders", "json")`. -/
def c2w_cw : Container :=
  match c2w_c0.register_domain_write_fn korders kjson 6 with
  | .ok c => c
  | .error _ => c2w_c0

/-- Witness for C2 amended, on the `"orders"`/`"payment"` container. -/
theorem c2_domain_isolation_normalized_witness :
    c2w_c0.wfB = true
    ∧ korders ≠ kpayment
    ∧ lookupA (RealAdapter.read_fns ⟨0, 1⟩ c2w_cr) (standardise_key kjson)
      = some (Fn.user 5)
    ∧ (RealAdapter.read_fns ⟨2, 3⟩ c2w_cr).all (fun p => decide (p.2 ≠ Fn.user 5)) = true
    ∧ lookupA (RealAdapter.write_fns ⟨0, 1⟩ c2w_cw) (standardise_key kjson)
      = some (Fn.user 6)
    ∧ (RealAdapter.write_fns ⟨2, 3⟩ c2w_cw).all (fun p => decide (p.2 ≠ Fn.user 6))
      = true := by
  have h := c2_domain_isolation_normalized c2w_c0 c2w_cr c2w_cw korders kpayment
    kjson kjson 5 6 0 1 2 3 (by decide) (by decide) (by decide) (by decide)
    (by decide) (by decide) (by decide) (by decide) (by decide)
  exact ⟨by decide, by decide, h.2.2.1, h.2.2.2.1, h.2.2.2.2.1, h.2.2.2.2.2⟩

/-! ## C6 — undeclared domains -/

/-- Counterexample to C6 as stated: `"ORDERS"` was never added to the
container (only `"orders"` was), yet registering a read function to
`"ORDERS"` succeeds, because registration normalizes the domain key
first. -/
theorem c6_counterexample :
    lookupA (Container.ofDomains [korders]).domain_fns kORDERS = none
    ∧ ((Container.ofDomains [korders]).register_domain_read_fn kORDERS kjson 7).isOk
      = true := by
  decide

/-- C6 amended: registering a read or write function fails with the
`KeyError` lookup error naming the normalized domain exactly when the
normalized domain is absent from the container's domain map, and
requesting a real or fake adapter fails with the `KeyError` naming the
domain exactly when the domain as given is absent. -/
theorem c6_undeclared_domain_errors (c : Container) (d k : Key) (f : Nat)
    (files : List (PathV × Data)) :
    (c.register_domain_read_fn d k f = .error (.keyError (standardise_key d))
      ↔ lookupA c.domain_fns (standardise_key d) = none)
    ∧ (c.register_domain_write_fn d k f = .error (.keyError (standardise_key d))
      ↔ lookupA c.domain_fns (standardise_key d) = none)
    ∧ (c.get_real_adapter d = .error (.keyError d) ↔ lookupA c.domain_fns d = none)
    ∧ (c.get_fake_adapter d files = .error (.keyError d)
      ↔ lookupA c.domain_fns d = none) := by
  refine ⟨?_, ?_, ?_, ?_⟩
  · cases hm : lookupA c.domain_fns (standardise_key d) with
    | none => simp [Container.register_domain_read_fn, hm]
    | some p => obtain ⟨ra, wa⟩ := p; simp [Container.register_domain_read_fn, hm]
  · cases hm : lookupA c.domain_fns (standardise_key d) with
    | none => simp [Container.register_domain_write_fn, hm]
    | some p => obtain ⟨ra, wa⟩ := p; simp [Container.register_domain_write_fn, hm]
  · cases hm : lookupA c.domain_fns d with
    | none => simp [Container.get_real_adapter, hm]
    | some p => obtain ⟨ra, wa⟩ := p; simp [Container.get_real_adapter, hm]
  · cases hm : lookupA c.domain_fns d with
    | none => simp [Container.get_fake_adapter, hm]
    | some p => obtain ⟨ra, wa⟩ := p; simp [Container.get_fake_adapter, hm]

/-! ## C10 — domain-key normalization asymmetry -/

/-- C10: `add_domain` stores the domain exactly as given and the adapter
factories look it up exactly as given, while registration normalizes the
domain first; hence for a domain `d` differing from its normalized form,
after `add_domain(d)` (with the normalized form not otherwise present)
registration to `d` fails with the `KeyError` naming the normalized
form while `get_real_adapter(d)` succeeds; and registration to a
never-added domain succeeds whenever its normalized form was added. -/
theorem c10_domain_key_asymmetry (c c' : Container) (d k : Key) (f rb wb : Nat)
    (h1 : standardise_key d ≠ d)
    (h2 : lookupA c.domain_fns (standardise_key d) = none)
    (h3 : lookupA c'.domain_fns d = none)
    (h4 : lookupA c'.domain_fns (standardise_key d) = some (rb, wb)) :
    (c.add_domain d).domain_fns
      = insertA c.domain_fns d (c.heap.length, c.heap.length + 1)
    ∧ (c.add_domain d).register_domain_read_fn d k f
      = .error (.keyError (standardise_key d))
    ∧ (c.add_domain d).register_domain_write_fn d k f
      = .error (.keyError (standardise_key d))
    ∧ (c.add_domain d).get_real_adapter d = .ok ⟨c.heap.length, c.heap.length + 1⟩
    ∧ (c'.register_domain_read_fn d k f).isOk = true
    ∧ c'.get_real_adapter d = .error (.keyError d) := by
  have hnorm : lookupA (c.add_domain d).domain_fns (standardise_key d) = none := by
    show lookupA (insertA c.domain_fns d _) (standardise_key d) = none
    rw [lookupA_insertA_ne c.domain_fns h1, h2]
  have hself : lookupA (c.add_domain d).domain_fns d
      = some (c.heap.length, c.heap.length + 1) := by
    show lookupA (insertA c.domain_fns d _) d = _
    rw [lookupA_insertA_self]
  refine ⟨rfl, ?_, ?_, ?_, ?_, ?_⟩
  · simp [Container.register_domain_read_fn, hnorm]
  · simp [Container.register_domain_write_fn, hnorm]
  · simp [Container.get_real_adapter, hself]
  · simp [Container.register_domain_read_fn, h4, PyResult.isOk]
  · simp [Container.get_real_adapter, h3]

/-- Witness for C10: the empty container with `"ORDERS"` added, and the
`"orders"` container with a registration to the never-added `"ORDERS"`. -/
theorem c10_domain_key_asymmetry_witness :
    standardise_key kORDERS ≠ kORDERS
    ∧ lookupA (Container.ofDomains []).domain_fns (standardise_key kORDERS) = none
    ∧ lookupA (Container.ofDomains [korders]).domain_fns kORDERS = none
    ∧ lookupA (Container.ofDomains [korders]).domain_fns (standardise_key kORDERS)
      = some (0, 1)
    ∧ ((Container.ofDomains []).add_domain kORDERS).register_domain_read_fn
        kORDERS kjson 7 = .error (.keyError (standardise_key kORDERS))
    ∧ ((Container.ofDomains []).add_domain kORDERS).get_real_adapter kORDERS
      = .ok ⟨0, 1⟩
    ∧ ((Container.ofDomains [korders]).register_domain_read_fn kORDERS kjson 7).isOk
      = true := by
  have h := c10_domain_key_asymmetry (Container.ofDomains [])
    (Container.ofDomains [korders]) kORDERS kjson 7 0 1
    (by decide) (by decide) (by decide) (by decide)
  exact ⟨by decide, by decide, by decide, by decide, h.2.1, h.2.2.2.1, h.2.2.2.2.1⟩

end IoAdapters
